import Mathlib

/-!
Verification development for the excel-mcp-server data layer
(`src/excel_mcp/data.py` and `src/excel_mcp/server.py`).

The Python functions are shallowly embedded as executable Lean
definitions.  Strings are manipulated through their character lists so
that every definition reduces in the kernel.  Python `float` values are
idealised as exact rationals (`Rat`); machine floating point rounding is
not modelled, and none of the proved statements depends on it.
-/

/-! ## Character and string helpers (models of the Python primitives) -/

/-- Model of Python `str.isdigit` restricted to ASCII digits. -/
def isDigitChar (c : Char) : Bool :=
  (decide (48 ≤ c.toNat)) && (decide (c.toNat ≤ 57))

/-- Whitespace characters stripped by Python `str.strip`. -/
def isPyWhite (c : Char) : Bool :=
  c == ' ' || c == '\t' || c == '\n' || c == '\r' || c == '\x0b' || c == '\x0c'

/-- Model of Python `str.strip()` on a character list. -/
def pyStripList (l : List Char) : List Char :=
  ((l.dropWhile isPyWhite).reverse.dropWhile isPyWhite).reverse

/-- ASCII upper/lower case pairs, used to model Python `str.lower`. -/
def asciiCase : List (Char × Char) :=
  [('A','a'), ('B','b'), ('C','c'), ('D','d'), ('E','e'), ('F','f'),
   ('G','g'), ('H','h'), ('I','i'), ('J','j'), ('K','k'), ('L','l'),
   ('M','m'), ('N','n'), ('O','o'), ('P','p'), ('Q','q'), ('R','r'),
   ('S','s'), ('T','t'), ('U','u'), ('V','v'), ('W','w'), ('X','x'),
   ('Y','y'), ('Z','z')]

/-- Model of Python `str.lower` on a single character (ASCII). -/
def pyCharLower (c : Char) : Char :=
  match asciiCase.find? (fun p => p.1 == c) with
  | some p => p.2
  | none => c

/-- Numeric value of a list of ASCII digit characters. -/
def digitsVal (l : List Char) : Nat :=
  l.foldl (fun a c => 10 * a + (c.toNat - 48)) 0

/-! ## Python `int()` / `float()` conversion (the fallible converters)

`int(s)` / `float(s)` raising `ValueError` is modelled as `none`.
Python numeric literals may contain single underscores between digits;
the `inf`/`nan` keywords of `float` are not modelled, since no call site
of `float` in `data.py` can receive them (the argument always passes a
digit-class check or contains a `.`/`e`, which those keywords fail). -/

/-- Consume a run of digits (with single underscores between digits),
returning the accumulated value, the number of digits, and the rest. -/
def digitTail : Nat → Nat → List Char → Nat × Nat × List Char
  | acc, k, [] => (acc, k, [])
  | acc, k, [c] =>
      if isDigitChar c then (10 * acc + (c.toNat - 48), k + 1, []) else (acc, k, [c])
  | acc, k, c :: d :: rest =>
      if isDigitChar c then digitTail (10 * acc + (c.toNat - 48)) (k + 1) (d :: rest)
      else if c = '_' ∧ isDigitChar d then digitTail acc k (d :: rest)
      else (acc, k, c :: d :: rest)

/-- A Python `digitpart`: at least one digit, underscores allowed between. -/
def parseDigitPart (l : List Char) : Option (Nat × Nat × List Char) :=
  match l with
  | c :: _ => if isDigitChar c then some (digitTail 0 0 l) else none
  | [] => none

/-- Optional leading sign. -/
def parseSign (l : List Char) : Int × List Char :=
  match l with
  | c :: rest =>
      if c = '+' then (1, rest)
      else if c = '-' then (-1, rest)
      else (1, c :: rest)
  | [] => (1, [])

/-- Mantissa of a float literal: `digits [. digits?] | . digits`.
Returns (numerator, number of fractional digits, rest). -/
def parseMantissa (l : List Char) : Option (Nat × Nat × List Char) :=
  match l with
  | '.' :: rest =>
      match parseDigitPart rest with
      | some (fv, fk, r2) => some (fv, fk, r2)
      | none => none
  | _ =>
      match parseDigitPart l with
      | some (ip, _, r1) =>
          match r1 with
          | '.' :: r2 =>
              match parseDigitPart r2 with
              | some (fv, fk, r3) => some (ip * 10 ^ fk + fv, fk, r3)
              | none => some (ip, 0, r2)
          | _ => some (ip, 0, r1)
      | none => none

/-- Model of Python `float(s)` (exact rational value; `none` = `ValueError`). -/
def pyFloatList (l : List Char) : Option Rat :=
  let s := parseSign l
  match parseMantissa s.2 with
  | none => none
  | some (num, fk, l2) =>
    match l2 with
    | [] => some ((s.1 : Rat) * (num : Rat) / (10 : Rat) ^ fk)
    | c :: l3 =>
      if c = 'e' ∨ c = 'E' then
        let es := parseSign l3
        match parseDigitPart es.2 with
        | some (ev, _, []) =>
            let base : Rat := (s.1 : Rat) * (num : Rat) / (10 : Rat) ^ fk
            some (if 0 ≤ es.1 then base * (10 : Rat) ^ ev else base / (10 : Rat) ^ ev)
        | _ => none
      else none

/-- Model of Python `int(s)` (`none` = `ValueError`). -/
def pyIntList (l : List Char) : Option Int :=
  let s := parseSign l
  match parseDigitPart s.2 with
  | some (v, _, []) => some (s.1 * (v : Int))
  | _ => none

/-! ## The inferred value type -/

/-- A converted cell value as produced by `_infer_and_convert_data_type`. -/
inductive CellValue where
  | int (n : Int)
  | float (q : Rat)
  | bool (b : Bool)
  | date (y m d : Nat)
  | datetime (y m d hh mi ss : Nat)
  | text (s : String)
deriving DecidableEq

/-! ## Numeric detection (`data.py` lines 34-67)

All branches live inside one `try`; a `ValueError` in a conversion
jumps out to date detection.  `numericStage l = none` models that jump
(or a failed final conversion); `some (v, fmt)` models a `return`. -/

/-- The currency symbols of `data.py`. -/
def isCurrencySym (c : Char) : Bool :=
  c == '$' || c == '€' || c == '£' || c == '¥'

/-- `str_value[:-1].replace(",", "")` for the percentage branch. -/
def pctNumericPart (l : List Char) : List Char :=
  l.dropLast.filter (fun c => !(c == ','))

/-- `numeric_part.replace(".", "").replace("-", "").isdigit()`. -/
def pctDigitCheck (l : List Char) : Bool :=
  let t := (pctNumericPart l).filter (fun c => !(c == '.') && !(c == '-'))
  !t.isEmpty && t.all isDigitChar

/-- The guard of the percentage branch: ends with `%` and passes the
digit check. -/
def pctGuard (l : List Char) : Bool :=
  (l.getLast? == some '%') && pctDigitCheck l

/-- Model of `re.match(r"^[\$€£¥]?[\d,]+\.?\d*$", s)`.  The pattern is
anchored and the greedy match is complete for it, so a deterministic
scan decides it. -/
def currencyMatch (l : List Char) : Bool :=
  let l1 := match l with
    | c :: rest => if isCurrencySym c then rest else l
    | [] => l
  let p := l1.span (fun c => isDigitChar c || c == ',')
  !p.1.isEmpty &&
    (match p.2 with
     | [] => true
     | '.' :: ds => ds.all isDigitChar
     | _ => false)

/-- `re.sub(r"[\$€£¥,]", "", s)` for the currency branch. -/
def currencyNumericPart (l : List Char) : List Char :=
  l.filter (fun c => !(isCurrencySym c || c == ','))

/-- Model of `re.match(r"^-?[\d,]+\.?\d*$", s)`. -/
def numberMatch (l : List Char) : Bool :=
  let l1 := match l with
    | '-' :: rest => rest
    | _ => l
  let p := l1.span (fun c => isDigitChar c || c == ',')
  !p.1.isEmpty &&
    (match p.2 with
     | [] => true
     | '.' :: ds => ds.all isDigitChar
     | _ => false)

/-- `str_value.replace(",", "")` for the plain-number branch. -/
def numberNumericPart (l : List Char) : List Char :=
  l.filter (fun c => !(c == ','))

/-- The numeric portion of `_infer_and_convert_data_type`
(`data.py` lines 34-67).  `none` models a `ValueError` escaping to the
date-detection section. -/
def numericStage (l : List Char) : Option (CellValue × String) :=
  if pctGuard l then
    (pyFloatList (pctNumericPart l)).map (fun q => (CellValue.float (q / 100), "0.00%"))
  else if currencyMatch l then
    if (currencyNumericPart l).contains '.' then
      (pyFloatList (currencyNumericPart l)).map
        (fun q => (CellValue.float q, "\"$\"#,##0.00"))
    else
      (pyIntList (currencyNumericPart l)).map
        (fun n => (CellValue.int n, "\"$\"#,##0"))
  else if numberMatch l then
    if (numberNumericPart l).contains '.' then
      (pyFloatList (numberNumericPart l)).map (fun q => (CellValue.float q, "0.00"))
    else
      (pyIntList (numberNumericPart l)).map (fun n => (CellValue.int n, "0"))
  else if l.contains '.' || (l.map pyCharLower).contains 'e' then
    (pyFloatList l).map (fun q => (CellValue.float q, "0.00"))
  else
    (pyIntList l).map (fun n => (CellValue.int n, "0"))

/-! ## Date detection (`data.py` lines 69-96)

`datetime.strptime` is modelled per directive following CPython's
`_strptime` regexes: `%Y` is exactly four digits; `%m`, `%d`, `%H`,
`%M`, `%S` accept a two-digit form when its value is in range, else a
one-digit form; whitespace in the format matches one or more whitespace
characters; the whole string must be consumed; the resulting calendar
date must be valid (`datetime(...)` raises otherwise). -/

/-- Match one literal character. -/
def pLit (c : Char) : List Char → Option (List Char)
  | x :: rest => if x == c then some rest else none
  | [] => none

/-- Match one or more whitespace characters (format whitespace). -/
def pSpace1 : List Char → Option (List Char)
  | x :: rest => if isPyWhite x then some (rest.dropWhile isPyWhite) else none
  | [] => none

/-- `%Y`: exactly four digits. -/
def pYear4 : List Char → Option (Nat × List Char)
  | a :: b :: c :: d :: rest =>
      if isDigitChar a && isDigitChar b && isDigitChar c && isDigitChar d then
        some (digitsVal [a, b, c, d], rest)
      else none
  | _ => none

/-- Two-digit-preferred numeric directive: a two-digit form is taken
when its value lies in `[lo2, hi2]`, otherwise a one-digit form with
value in `[lo1, hi1]`. -/
def pNum2or1 (lo2 hi2 lo1 hi1 : Nat) : List Char → Option (Nat × List Char)
  | a :: b :: rest =>
      if isDigitChar a && isDigitChar b then
        let v := digitsVal [a, b]
        if lo2 ≤ v ∧ v ≤ hi2 then some (v, rest)
        else
          let v1 := digitsVal [a]
          if lo1 ≤ v1 ∧ v1 ≤ hi1 then some (v1, b :: rest) else none
      else if isDigitChar a then
        let v1 := digitsVal [a]
        if lo1 ≤ v1 ∧ v1 ≤ hi1 then some (v1, b :: rest) else none
      else none
  | [a] =>
      if isDigitChar a then
        let v1 := digitsVal [a]
        if lo1 ≤ v1 ∧ v1 ≤ hi1 then some (v1, []) else none
      else none
  | [] => none

/-- Gregorian leap year, as in Python's `calendar`/`datetime`. -/
def isLeap (y : Nat) : Bool :=
  (y % 4 == 0) && (!(y % 100 == 0) || (y % 400 == 0))

/-- Days in a month. -/
def daysInMonth (y m : Nat) : Nat :=
  if m == 2 then (if isLeap y then 29 else 28)
  else if m == 4 || m == 6 || m == 9 || m == 11 then 30
  else 31

/-- Validity check done by the `datetime` constructor beyond what the
directive regexes guarantee: `MINYEAR = 1` and the day must exist. -/
def validYMD (y m d : Nat) : Bool :=
  (decide (1 ≤ y)) && (decide (d ≤ daysInMonth y m))

/-- `%Y sep %m sep %d`. -/
def pDateYmd (sep : Char) (l : List Char) : Option ((Nat × Nat × Nat) × List Char) := do
  let (y, r1) ← pYear4 l
  let r2 ← pLit sep r1
  let (m, r3) ← pNum2or1 1 12 1 9 r2
  let r4 ← pLit sep r3
  let (d, r5) ← pNum2or1 1 31 1 9 r4
  pure ((y, m, d), r5)

/-- `%m sep %d sep %Y` (result normalised to (y, m, d)). -/
def pDateMdy (sep : Char) (l : List Char) : Option ((Nat × Nat × Nat) × List Char) := do
  let (m, r1) ← pNum2or1 1 12 1 9 l
  let r2 ← pLit sep r1
  let (d, r3) ← pNum2or1 1 31 1 9 r2
  let r4 ← pLit sep r3
  let (y, r5) ← pYear4 r4
  pure ((y, m, d), r5)

/-- `%d sep %m sep %Y` (result normalised to (y, m, d)). -/
def pDateDmy (sep : Char) (l : List Char) : Option ((Nat × Nat × Nat) × List Char) := do
  let (d, r1) ← pNum2or1 1 31 1 9 l
  let r2 ← pLit sep r1
  let (m, r3) ← pNum2or1 1 12 1 9 r2
  let r4 ← pLit sep r3
  let (y, r5) ← pYear4 r4
  pure ((y, m, d), r5)

/-- `%H:%M`. -/
def pTimeHM (l : List Char) : Option ((Nat × Nat) × List Char) := do
  let (h, r1) ← pNum2or1 0 23 0 9 l
  let r2 ← pLit ':' r1
  let (m, r3) ← pNum2or1 0 59 0 9 r2
  pure ((h, m), r3)

/-- `%H:%M:%S`. -/
def pTimeHMS (l : List Char) : Option ((Nat × Nat × Nat) × List Char) := do
  let (hm, r1) ← pTimeHM l
  let r2 ← pLit ':' r1
  let (s, r3) ← pNum2or1 0 59 0 9 r2
  pure ((hm.1, hm.2, s), r3)

/-- One date-only format: the whole string must be a valid date. -/
def tryFmtDate (pd : List Char → Option ((Nat × Nat × Nat) × List Char))
    (l : List Char) : Option (CellValue × String) :=
  match pd l with
  | some (ymd, []) =>
      if validYMD ymd.1 ymd.2.1 ymd.2.2 then
        some (CellValue.date ymd.1 ymd.2.1 ymd.2.2, "mm/dd/yyyy")
      else none
  | _ => none

/-- One `date %H:%M:%S` format. -/
def tryFmtDTS (pd : List Char → Option ((Nat × Nat × Nat) × List Char))
    (l : List Char) : Option (CellValue × String) :=
  match pd l with
  | some (ymd, rest) =>
      match pSpace1 rest with
      | some r2 =>
          match pTimeHMS r2 with
          | some (hms, []) =>
              if validYMD ymd.1 ymd.2.1 ymd.2.2 then
                some (CellValue.datetime ymd.1 ymd.2.1 ymd.2.2 hms.1 hms.2.1 hms.2.2,
                      "mm/dd/yyyy h:mm")
              else none
          | _ => none
      | none => none
  | none => none

/-- One `date %H:%M` format (seconds default to 0). -/
def tryFmtDTM (pd : List Char → Option ((Nat × Nat × Nat) × List Char))
    (l : List Char) : Option (CellValue × String) :=
  match pd l with
  | some (ymd, rest) =>
      match pSpace1 rest with
      | some r2 =>
          match pTimeHM r2 with
          | some (hm, []) =>
              if validYMD ymd.1 ymd.2.1 ymd.2.2 then
                some (CellValue.datetime ymd.1 ymd.2.1 ymd.2.2 hm.1 hm.2 0,
                      "mm/dd/yyyy h:mm")
              else none
          | _ => none
      | none => none
  | none => none

/-- First-some combinator (the `for fmt in date_formats` loop step). -/
def oelse (a b : Option (CellValue × String)) : Option (CellValue × String) :=
  match a with
  | some x => some x
  | none => b

/-- The date-detection section: the ten formats of `data.py` tried in
order. -/
def dateStage (l : List Char) : Option (CellValue × String) :=
  oelse (tryFmtDate (pDateYmd '-') l)
  (oelse (tryFmtDate (pDateMdy '/') l)
  (oelse (tryFmtDate (pDateDmy '/') l)
  (oelse (tryFmtDate (pDateYmd '/') l)
  (oelse (tryFmtDTS (pDateYmd '-') l)
  (oelse (tryFmtDTS (pDateMdy '/') l)
  (oelse (tryFmtDTS (pDateDmy '/') l)
  (oelse (tryFmtDTM (pDateYmd '-') l)
  (oelse (tryFmtDTM (pDateMdy '/') l)
         (tryFmtDTM (pDateDmy '/') l)))))))))

/-! ## `_infer_and_convert_data_type` (`data.py` lines 18-106) -/

/-- The boolean keyword list of `data.py` line 99. -/
def boolWords : List (List Char) :=
  ["true".data, "false".data, "yes".data, "no".data, "1".data, "0".data]

/-- The true-valued keywords of `data.py` line 100. -/
def boolTrueWords : List (List Char) :=
  ["true".data, "yes".data, "1".data]

/-- Body of `_infer_and_convert_data_type` after input normalisation,
on the stripped character list. -/
def inferCore (sv : List Char) : Option CellValue × Option String :=
  match numericStage sv with
  | some vf => (some vf.1, some vf.2)
  | none =>
    match dateStage sv with
    | some vf => (some vf.1, some vf.2)
    | none =>
      let low := sv.map pyCharLower
      if boolWords.contains low then
        if boolTrueWords.contains low then (some (CellValue.bool true), none)
        else (some (CellValue.bool false), none)
      else (some (CellValue.text (String.mk sv)), none)

/-- `_infer_and_convert_data_type` of `data.py`.  The input is a string
or `None` (the tool layer passes JSON strings/null). -/
def _infer_and_convert_data_type (value : Option String) :
    Option CellValue × Option String :=
  match value with
  | none => (none, none)
  | some s =>
    if s = "" then (none, none)
    else
      let sv := pyStripList s.data
      if sv = [] then (none, none)
      else inferCore sv

/-! ## Worksheets and workbooks (the openpyxl collaborator, idealised)

A sheet is its cell contents, its display formats, its validation
descriptors (the `cell_validation` collaborator, keyed by coordinates)
and the boundary the library reports (`min_row`/`min_column`/
`max_row`/`max_column`).  Dimension tracking on writes (openpyxl grows
the reported boundary as cells are created) is not modelled; no claim
below reads a boundary after a write. -/

structure Sheet where
  cells : Nat → Nat → Option CellValue
  fmts : Nat → Nat → String
  validations : Nat → Nat → Option String
  minRow : Nat
  minCol : Nat
  maxRow : Nat
  maxCol : Nat

structure Workbook where
  sheets : List (String × Sheet)
  active : String

def Workbook.findSheet (wb : Workbook) (n : String) : Option Sheet :=
  (wb.sheets.find? (fun p => p.1 == n)).map (fun p => p.2)

def Workbook.hasSheet (wb : Workbook) (n : String) : Bool :=
  (wb.sheets.find? (fun p => p.1 == n)).isSome

/-- A freshly created sheet: no cells, default formats, reported
boundary `(1,1,1,1)` as openpyxl reports for an empty sheet. -/
def emptySheet : Sheet :=
  { cells := fun _ _ => none
    fmts := fun _ _ => "General"
    validations := fun _ _ => none
    minRow := 1
    minCol := 1
    maxRow := 1
    maxCol := 1 }

def Workbook.createSheet (wb : Workbook) (n : String) : Workbook :=
  { wb with sheets := wb.sheets ++ [(n, emptySheet)] }

def Workbook.setSheet (wb : Workbook) (n : String) (ws : Sheet) : Workbook :=
  { wb with sheets := wb.sheets.map (fun p => if p.1 == n then (p.1, ws) else p) }

/-! ## Address parsing -/

/-- Split a character list at every occurrence of `c`
(Python `str.split`). -/
def splitOnChar (c : Char) (l : List Char) : List (List Char) :=
  match l with
  | [] => [[]]
  | x :: rest =>
    let r := splitOnChar c rest
    if x == c then [] :: r
    else
      match r with
      | h :: t => (x :: h) :: t
      | [] => [[x]]

def isAsciiLetter (c : Char) : Bool :=
  ((decide (65 ≤ c.toNat)) && (decide (c.toNat ≤ 90))) ||
  ((decide (97 ≤ c.toNat)) && (decide (c.toNat ≤ 122)))

/-- Base-26 value of one column letter (case-insensitive, A = 1). -/
def letterVal (c : Char) : Nat :=
  if 97 ≤ c.toNat then c.toNat - 96 else c.toNat - 64

/-- Modelled from the spec: the Address Parser of `cell_utils.py`
(not under `src/`) applied to one bare cell reference — column letters
(case-insensitive base-26 with A = 1) followed by row digits, row ≥ 1;
anything else is a parse failure. -/
def parseAddrList (l : List Char) : Option (Nat × Nat) :=
  if (l.takeWhile isAsciiLetter).isEmpty then none
  else if (l.dropWhile isAsciiLetter).isEmpty then none
  else if !((l.dropWhile isAsciiLetter).all isDigitChar) then none
  else if 1 ≤ digitsVal (l.dropWhile isAsciiLetter) then
    some (digitsVal (l.dropWhile isAsciiLetter),
          (l.takeWhile isAsciiLetter).foldl (fun a c => 26 * a + letterVal c) 0)
  else none

/-- Modelled from the spec: `cell_utils.parse_cell_range` (not under
`src/`) — a bare reference or a `start:end` reference split on `:`,
each side parsed independently; result is
`(start_row, start_col, end_row?, end_col?)`, `none` a raised error. -/
def parse_cell_range (s : String) : Option (Nat × Nat × Option Nat × Option Nat) :=
  match splitOnChar ':' s.data with
  | [a] => (parseAddrList a).map (fun rc => (rc.1, rc.2, none, none))
  | [a, b] =>
      match parseAddrList a, parseAddrList b with
      | some x, some y => some (x.1, x.2, some y.1, some y.2)
      | _, _ => none
  | _ => none

/-- openpyxl `get_column_letter`, fuel-driven base-26 rendering
(the library's 1..18278 bound is not modelled). -/
def colLetterFuel : Nat → Nat → List Char
  | 0, _ => []
  | fuel + 1, n =>
      if n = 0 then []
      else colLetterFuel fuel ((n - 1) / 26) ++ [Char.ofNat (65 + (n - 1) % 26)]

def get_column_letter (n : Nat) : String :=
  String.mk (colLetterFuel n n)

/-- Decimal rendering of a natural number (Python `f"{row}"`). -/
def natCharsFuel : Nat → Nat → List Char
  | 0, _ => []
  | fuel + 1, n =>
      if n < 10 then [Char.ofNat (48 + n)]
      else natCharsFuel fuel (n / 10) ++ [Char.ofNat (48 + n % 10)]

def natToString (n : Nat) : String :=
  String.mk (natCharsFuel (n + 1) n)

/-! ## `read_excel_range` (`data.py` lines 109-188) -/

/-- The `if ":" in start_cell: start_cell, end_cell = start_cell.split(":")`
step; `none` models the unpacking `ValueError`. -/
def splitStartCell (start_cell : String) (end_cell : Option String) :
    Option (String × Option String) :=
  if start_cell.data.contains ':' then
    match splitOnChar ':' start_cell.data with
    | [a, b] => some (String.mk a, some (String.mk b))
    | _ => none
  else some (start_cell, end_cell)

/-- The row-major collection loop of `read_excel_range` (lines
172-179): a row enters the output only if some cell in it is non-empty. -/
def collectRows (ws : Sheet) (sr sc er ec : Nat) : List (List (Option CellValue)) :=
  (List.range' sr (er + 1 - sr)).filterMap (fun r =>
    let rd := (List.range' sc (ec + 1 - sc)).map (fun c => ws.cells r c)
    if rd.any (fun v => v.isSome) then some rd else none)

/-- Bounds validation plus collection (lines 161-182). -/
def readFinish (ws : Sheet) (sr sc er ec : Nat) :
    Except String (List (List (Option CellValue))) :=
  if sr > ws.maxRow ∨ sc > ws.maxCol then Except.ok []
  else Except.ok (collectRows ws sr sc er ec)

/-- The no-end-cell branch (lines 151-159): an empty sheet reads just the
start cell; otherwise the sheet's own boundary replaces both start and
end. -/
def readNoEnd (ws : Sheet) (sr sc : Nat) :
    Except String (List (List (Option CellValue))) :=
  if ws.maxRow = 1 ∧ ws.maxCol = 1 ∧ ws.cells 1 1 = none then
    readFinish ws sr sc sr sc
  else
    readFinish ws ws.minRow ws.minCol ws.maxRow ws.maxCol

/-- `read_excel_range` of `data.py`.  `Except.error` models a raised
`DataError`. -/
def read_excel_range (wb : Workbook) (sheet_name start_cell0 : String)
    (end_cell0 : Option String) :
    Except String (List (List (Option CellValue))) :=
  match wb.findSheet sheet_name with
  | none => Except.error ("Sheet \x27" ++ sheet_name ++ "\x27 not found")
  | some ws =>
    match splitStartCell start_cell0 end_cell0 with
    | none => Except.error "too many values to unpack (expected 2)"
    | some se =>
      match parse_cell_range (se.1 ++ ":" ++ se.1) with
      | none => Except.error "Invalid start cell format"
      | some sco =>
        match se.2 with
        | some e =>
          if e = "" then readNoEnd ws sco.1 sco.2.1
          else
            match parse_cell_range (e ++ ":" ++ e) with
            | none => Except.error "Invalid end cell format"
            | some eco => readFinish ws sco.1 sco.2.1 eco.1 eco.2.1
        | none => readNoEnd ws sco.1 sco.2.1

/-! ## `read_excel_range_with_metadata` (`data.py` lines 293-403) -/

structure CellRecord where
  address : String
  value : Option CellValue
  row : Nat
  column : Nat
  validation : Option (Option String)
deriving DecidableEq

structure RangeData where
  range : String
  sheet_name : String
  cells : List CellRecord
deriving DecidableEq

/-- One `cell_data` dict (lines 375-391).  `validation = none` models an
absent key; `some none` models the `{"has_validation": False}` marker;
`some (some v)` a descriptor from the validation collaborator. -/
def mkCellRecord (ws : Sheet) (r c : Nat) (iv : Bool) : CellRecord :=
  { address := get_column_letter c ++ natToString r
    value := ws.cells r c
    row := r
    column := c
    validation := if iv then some (ws.validations r c) else none }

/-- The metadata collection loop (lines 373-393): every cell of the
rectangle is recorded, row-major. -/
def collectCells (ws : Sheet) (sr sc er ec : Nat) (iv : Bool) : List CellRecord :=
  (List.range' sr (er + 1 - sr)).flatMap (fun r =>
    (List.range' sc (ec + 1 - sc)).map (fun c => mkCellRecord ws r c iv))

/-- End-coordinate resolution of the metadata variant (lines 346-356):
with no end cell, a non-empty sheet keeps the caller's start unless the
(rebound) start string equals `"A1"`, in which case it snaps to the
sheet minimum. -/
def metaNoEnd (ws : Sheet) (sc0 : String) (sr sc : Nat) : Nat × Nat × Nat × Nat :=
  if ws.maxRow = 1 ∧ ws.maxCol = 1 ∧ ws.cells 1 1 = none then (sr, sc, sr, sc)
  else if sc0 = "A1" then (ws.minRow, ws.minCol, ws.maxRow, ws.maxCol)
  else (sr, sc, ws.maxRow, ws.maxCol)

/-- Bounds validation plus structured output (lines 358-396). -/
def metaFinish (ws : Sheet) (sheet_name sc0 : String) (iv : Bool)
    (sr sc er ec : Nat) : Except String RangeData :=
  if sr > ws.maxRow ∨ sc > ws.maxCol then
    Except.ok { range := sc0 ++ ":", sheet_name := sheet_name, cells := [] }
  else
    Except.ok
      { range := get_column_letter sc ++ natToString sr ++ ":" ++
                 get_column_letter ec ++ natToString er
        sheet_name := sheet_name
        cells := collectCells ws sr sc er ec iv }

/-- `read_excel_range_with_metadata` of `data.py`. -/
def read_excel_range_with_metadata (wb : Workbook) (sheet_name start_cell0 : String)
    (end_cell0 : Option String) (include_validation : Bool) :
    Except String RangeData :=
  match wb.findSheet sheet_name with
  | none => Except.error ("Sheet \x27" ++ sheet_name ++ "\x27 not found")
  | some ws =>
    match splitStartCell start_cell0 end_cell0 with
    | none => Except.error "too many values to unpack (expected 2)"
    | some se =>
      match parse_cell_range (se.1 ++ ":" ++ se.1) with
      | none => Except.error "Invalid start cell format"
      | some sco =>
        match se.2 with
        | some e =>
          if e = "" then
            let q := metaNoEnd ws se.1 sco.1 sco.2.1
            metaFinish ws sheet_name se.1 include_validation q.1 q.2.1 q.2.2.1 q.2.2.2
          else
            match parse_cell_range (e ++ ":" ++ e) with
            | none => Except.error "Invalid end cell format"
            | some eco =>
              metaFinish ws sheet_name se.1 include_validation sco.1 sco.2.1 eco.1 eco.2.1
        | none =>
          let q := metaNoEnd ws se.1 sco.1 sco.2.1
          metaFinish ws sheet_name se.1 include_validation q.1 q.2.1 q.2.2.1 q.2.2.2

/-! ## The write path (`data.py` lines 191-290) -/

def updateCell (ws : Sheet) (r c : Nat) (v : Option CellValue) : Sheet :=
  { ws with cells := fun r' c' => if r' = r ∧ c' = c then v else ws.cells r' c' }

def updateFmt (ws : Sheet) (r c : Nat) (f : String) : Sheet :=
  { ws with fmts := fun r' c' => if r' = r ∧ c' = c then f else ws.fmts r' c' }

/-- One iteration of the write loop (lines 213-223).  With auto-detect
the converted value is stored and, only if a (truthy) format token was
produced, the cell's number format is set; without it the raw value is
stored verbatim. -/
def writeCellVal (ws : Sheet) (r c : Nat) (val : Option String) (auto : Bool) : Sheet :=
  if auto then
    let vf := _infer_and_convert_data_type val
    let ws1 := updateCell ws r c vf.1
    match vf.2 with
    | some f => if f = "" then ws1 else updateFmt ws1 r c f
    | none => ws1
  else updateCell ws r c (val.map CellValue.text)

/-- The inner `for j, val in enumerate(row)` loop. -/
def writeRow (ws : Sheet) (r c : Nat) (vals : List (Option String)) (auto : Bool) : Sheet :=
  match vals with
  | [] => ws
  | v :: rest => writeRow (writeCellVal ws r c v auto) r (c + 1) rest auto

/-- The outer `for i, row in enumerate(data)` loop. -/
def writeRows (ws : Sheet) (r c : Nat) (rows : List (List (Option String)))
    (auto : Bool) : Sheet :=
  match rows with
  | [] => ws
  | row :: rest => writeRows (writeRow ws r c row auto) (r + 1) c rest auto

/-- `_write_data_to_worksheet` of `data.py`. -/
def _write_data_to_worksheet (ws : Sheet) (data : List (List (Option String)))
    (start_cell : String) (auto_detect_types : Bool) : Except String Sheet :=
  if data = [] then Except.error "No data provided to write"
  else
    match parse_cell_range start_cell with
    | none => Except.error "Invalid start cell format"
    | some sco => Except.ok (writeRows ws sco.1 sco.2.1 data auto_detect_types)

/-- `write_data` of `data.py`.  A falsy `sheet_name` (`None` or `""`)
selects the active sheet; a missing named sheet is created first.  The
result is the saved workbook, the message, and the reported sheet name. -/
def write_data (wb : Workbook) (sheet_name : Option String)
    (data : Option (List (List (Option String)))) (start_cell : String)
    (auto_detect_types : Bool) : Except String (Workbook × String × String) :=
  match data with
  | none => Except.error "No data provided to write"
  | some rows =>
    if rows = [] then Except.error "No data provided to write"
    else
      let wbsn : Workbook × String :=
        match sheet_name with
        | none => (wb, wb.active)
        | some s =>
          if s = "" then (wb, wb.active)
          else if wb.hasSheet s then (wb, s)
          else (wb.createSheet s, s)
      match wbsn.1.findSheet wbsn.2 with
      | none => Except.error ("Worksheet " ++ wbsn.2 ++ " does not exist.")
      | some ws =>
        match parse_cell_range start_cell with
        | none => Except.error "Invalid start cell format"
        | some _ =>
          match _write_data_to_worksheet ws rows start_cell auto_detect_types with
          | Except.error e => Except.error e
          | Except.ok ws2 =>
            Except.ok (wbsn.1.setSheet wbsn.2 ws2,
                       "Data written to " ++ wbsn.2 ++ " with type detection",
                       wbsn.2)

/-! ## `get_excel_path` (`server.py` lines 80-101)

The process-global `EXCEL_FILES_PATH` is threaded as an explicit
parameter (`none` = not in SSE mode).  `os.path` is modelled POSIX. -/

def os_path_isabs (p : String) : Bool :=
  p.data.head? == some '/'

def os_path_join (a b : String) : String :=
  if os_path_isabs b then b
  else if a = "" ∨ a.data.getLast? = some '/' then a ++ b
  else a ++ "/" ++ b

def get_excel_path (excel_files_path : Option String) (filename : String) :
    Except String String :=
  if os_path_isabs filename then Except.ok filename
  else
    match excel_files_path with
    | none =>
        Except.error ("Invalid filename: " ++ filename ++
          ", must be an absolute path when not in SSE mode")
    | some base => Except.ok (os_path_join base filename)

/-! ## Concrete fixtures used by witnesses and counterexamples -/

/-- A sheet holding one populated cell at A1, reported boundary (1,1)-(1,1). -/
def sheetOneCell : Sheet :=
  { cells := fun r c => if r = 1 ∧ c = 1 then some (CellValue.text "x") else none
    fmts := fun _ _ => "General"
    validations := fun _ _ => none
    minRow := 1
    minCol := 1
    maxRow := 1
    maxCol := 1 }

/-- A workbook with the single sheet `"S"` above. -/
def wbOneCell : Workbook :=
  { sheets := [("S", sheetOneCell)], active := "S" }

/-- A 2x2 sheet whose first row holds one value and whose second row is
entirely empty. -/
def sheetTwoByTwo : Sheet :=
  { cells := fun r c => if r = 1 ∧ c = 1 then some (CellValue.text "a") else none
    fmts := fun _ _ => "General"
    validations := fun _ _ => none
    minRow := 1
    minCol := 1
    maxRow := 2
    maxCol := 2 }

/-- A workbook with the single sheet `"S"` above. -/
def wbTwoByTwo : Workbook :=
  { sheets := [("S", sheetTwoByTwo)], active := "S" }

/-! ## Helper lemmas -/

theorem dropWhile_eq_nil_of_all {l : List Char} (p : Char → Bool)
    (h : l.all p = true) : l.dropWhile p = [] := by
  induction l with
  | nil => rfl
  | cons x t ih =>
    simp only [List.all_cons, Bool.and_eq_true] at h
    simp [List.dropWhile, h.1, ih h.2]

theorem pyStripList_eq_nil_of_all {l : List Char}
    (h : l.all isPyWhite = true) : pyStripList l = [] := by
  unfold pyStripList
  rw [dropWhile_eq_nil_of_all isPyWhite h]
  rfl

/-! ## Claim C7 -/

/-- C7: for an absent value, the empty string, and every whitespace-only
string, `_infer_and_convert_data_type` returns `(none, none)` — no value
and no display format. -/
theorem claim_C7_empty_inputs :
    _infer_and_convert_data_type none = (none, none) ∧
    _infer_and_convert_data_type (some "") = (none, none) ∧
    ∀ s : String, s.data.all isPyWhite = true →
      _infer_and_convert_data_type (some s) = (none, none) := by
  refine ⟨rfl, rfl, ?_⟩
  intro s h
  by_cases hs : s = ""
  · subst hs; rfl
  · have hsv : pyStripList s.data = [] := pyStripList_eq_nil_of_all h
    simp [_infer_and_convert_data_type, hs, hsv]

theorem claim_C7_empty_inputs_witness :
    _infer_and_convert_data_type (some "   ") = (none, none) :=
  claim_C7_empty_inputs.2.2 "   " (by decide)

/-! ## Claim C4 -/

/-- C4: calling the write path with an empty data set (`rows` absent or
empty) fails with the `DataError` message "No data provided to write";
the error is raised before the workbook is touched, so no workbook
value is produced. -/
theorem claim_C4_no_data_error :
    ∀ (wb : Workbook) (sn : Option String) (sc : String) (auto : Bool),
      write_data wb sn none sc auto = Except.error "No data provided to write" ∧
      write_data wb sn (some []) sc auto = Except.error "No data provided to write" := by
  intro wb sn sc auto
  exact ⟨rfl, rfl⟩

/-! ## Claim C9 -/

/-- C9: `get_excel_path` returns an absolute filename unchanged; for a
relative filename it raises an explicit error when no base directory is
configured, and joins the base directory with the filename when one is. -/
theorem claim_C9_path_resolution :
    (∀ (cfg : Option String) (f : String), os_path_isabs f = true →
        get_excel_path cfg f = Except.ok f) ∧
    (∀ f : String, os_path_isabs f = false →
        get_excel_path none f = Except.error
          ("Invalid filename: " ++ f ++ ", must be an absolute path when not in SSE mode")) ∧
    (∀ (base f : String), os_path_isabs f = false →
        get_excel_path (some base) f = Except.ok (os_path_join base f)) := by
  refine ⟨?_, ?_, ?_⟩ <;> intros <;> simp [get_excel_path, *]

theorem claim_C9_path_resolution_witness :
    get_excel_path (some "/base") "/abs/f.xlsx" = Except.ok "/abs/f.xlsx" ∧
    get_excel_path none "rel.xlsx" = Except.error
      ("Invalid filename: " ++ "rel.xlsx" ++ ", must be an absolute path when not in SSE mode") ∧
    get_excel_path (some "/base") "rel.xlsx" = Except.ok (os_path_join "/base" "rel.xlsx") :=
  ⟨claim_C9_path_resolution.1 (some "/base") "/abs/f.xlsx" (by decide),
   claim_C9_path_resolution.2.1 "rel.xlsx" (by decide),
   claim_C9_path_resolution.2.2 "/base" "rel.xlsx" (by decide)⟩

/-! ## Digit-string lemmas for the currency branch -/

theorem takeWhile_eq_self_of_all (l : List Char) (p : Char → Bool) (h : l.all p = true) :
    l.takeWhile p = l := by
  induction l with
  | nil => rfl
  | cons x t ih =>
    simp only [List.all_cons, Bool.and_eq_true] at h
    simp [List.takeWhile, h.1, ih h.2]

theorem listGetLast?_mem (l : List Char) (c : Char) (h : l.getLast? = some c) : c ∈ l := by
  induction l with
  | nil => simp at h
  | cons x t ih =>
    cases t with
    | nil =>
      have hx : (x :: ([] : List Char)).getLast? = some x := rfl
      rw [hx] at h
      have hxc : x = c := by injection h
      subst hxc
      exact List.mem_cons_self _ _
    | cons y u =>
      rw [List.getLast?_cons_cons] at h
      exact List.mem_cons_of_mem x (ih h)

theorem digitTail_all (l : List Char) : ∀ acc k : Nat, l.all isDigitChar = true →
    digitTail acc k l =
      (l.foldl (fun a c => 10 * a + (c.toNat - 48)) acc, k + l.length, []) := by
  induction l with
  | nil => intro acc k _; rfl
  | cons c t ih =>
    intro acc k h
    simp only [List.all_cons, Bool.and_eq_true] at h
    cases t with
    | nil => simp [digitTail, h.1]
    | cons d t2 =>
      have step := ih (10 * acc + (c.toNat - 48)) (k + 1) h.2
      have harith : k + 1 + (t2.length + 1) = k + (t2.length + 1 + 1) := by omega
      simp only [digitTail, h.1, if_true, step, List.foldl_cons, List.length_cons, harith]

theorem pyIntList_digits (l : List Char) (hne : l ≠ []) (h : l.all isDigitChar = true) :
    pyIntList l = some (digitsVal l : Int) := by
  cases l with
  | nil => exact absurd rfl hne
  | cons c t =>
    simp only [List.all_cons, Bool.and_eq_true] at h
    have hc := h.1
    have hplus : c ≠ '+' := by intro e; subst e; exact absurd hc (by decide)
    have hminus : c ≠ '-' := by intro e; subst e; exact absurd hc (by decide)
    have hpd : parseDigitPart (c :: t) = some (digitTail 0 0 (c :: t)) := by
      simp [parseDigitPart, hc]
    unfold pyIntList parseSign
    simp only [if_neg hplus, if_neg hminus]
    rw [hpd, digitTail_all (c :: t) 0 0 (by simp [hc, h.2])]
    simp [digitsVal]

theorem digitOrComma_not_currency (c : Char) (h : (isDigitChar c || c == ',') = true) :
    isCurrencySym c = false := by
  have h' : isDigitChar c = true ∨ (c == ',') = true := by simpa using h
  rcases h' with hd | hc
  · unfold isCurrencySym
    by_cases e1 : c = '$'
    · subst e1; exact absurd hd (by decide)
    · by_cases e2 : c = '€'
      · subst e2; exact absurd hd (by decide)
      · by_cases e3 : c = '£'
        · subst e3; exact absurd hd (by decide)
        · by_cases e4 : c = '¥'
          · subst e4; exact absurd hd (by decide)
          · simp [e1, e2, e3, e4]
  · have e : c = ',' := by simpa using hc
    subst e; decide

theorem digitOrComma_keep (c : Char) (h : (isDigitChar c || c == ',') = true) :
    (!(isCurrencySym c || c == ',')) = isDigitChar c := by
  have h' : isDigitChar c = true ∨ (c == ',') = true := by simpa using h
  rcases h' with hd | hc
  · have hcur := digitOrComma_not_currency c h
    have hcm : (c == ',') = false := by
      by_cases e : c = ','
      · subst e; exact absurd hd (by decide)
      · simp [e]
    simp [hcur, hcm, hd]
  · have e : c = ',' := by simpa using hc
    subst e; decide

theorem pctGuard_false_of_all (l : List Char)
    (h : l.all (fun c => isDigitChar c || c == ',') = true) : pctGuard l = false := by
  unfold pctGuard
  cases hl : l.getLast? with
  | none => simp
  | some c =>
    have hm : c ∈ l := listGetLast?_mem l c hl
    have hc := List.all_eq_true.mp h c hm
    have hpc : (some c == some '%') = false := by
      have : c ≠ '%' := by intro e; subst e; exact absurd hc (by decide)
      simp [this]
    simp [hpc]

theorem currencyMatch_of_digitsCommas (l : List Char) (hne : l ≠ [])
    (h : l.all (fun c => isDigitChar c || c == ',') = true) : currencyMatch l = true := by
  unfold currencyMatch
  cases l with
  | nil => exact absurd rfl hne
  | cons c t =>
    have hc := List.all_eq_true.mp h c (List.mem_cons_self c t)
    have hcur : isCurrencySym c = false := digitOrComma_not_currency c hc
    simp only [hcur, Bool.false_eq_true, if_false]
    rw [List.span_eq_take_drop,
        takeWhile_eq_self_of_all _ _ h, dropWhile_eq_nil_of_all _ h]
    simp

theorem currencyNumericPart_eq_filter (l : List Char)
    (h : l.all (fun c => isDigitChar c || c == ',') = true) :
    currencyNumericPart l = l.filter isDigitChar := by
  unfold currencyNumericPart
  apply List.filter_congr
  intro c hc
  exact digitOrComma_keep c (List.all_eq_true.mp h c hc)

theorem filter_digits_no_dot (l : List Char) :
    (l.filter isDigitChar).contains '.' = false := by
  by_contra hcon
  have hmem : '.' ∈ l.filter isDigitChar := by
    have := Bool.of_not_eq_false hcon
    simpa [List.contains] using this
  exact absurd (List.of_mem_filter hmem) (by decide)

/-! ## Claim C1 -/

/-- C1 counterexample: on `"1,000"` the inference function returns the
integer 1000 but with the currency-integer token `"$"#,##0`, not the
plain integer token `"0"` that the claim states — the currency regex's
symbol is optional, so it claims bare digit/comma strings first. -/
theorem claim_C1_counterexample :
    _infer_and_convert_data_type (some "1,000") =
      (some (CellValue.int 1000), some "\"$\"#,##0") ∧
    (some "\"$\"#,##0" : Option String) ≠ some "0" :=
  ⟨by decide, by decide⟩

/-- C1 (amended): for every input whose trimmed form consists only of
digits and thousands-separator commas with at least one digit (no
currency symbol, no percent sign, no decimal point), the inference
function returns the integer obtained by stripping the commas together
with the currency-integer display-format token `"$"#,##0` (the
currency branch, whose leading symbol is optional, claims it before the
plain-number branch can). -/
theorem claim_C1_digits_commas (s : String)
    (hne : pyStripList s.data ≠ [])
    (hall : (pyStripList s.data).all (fun c => isDigitChar c || c == ',') = true)
    (hdig : (pyStripList s.data).any isDigitChar = true) :
    _infer_and_convert_data_type (some s) =
      (some (CellValue.int (digitsVal ((pyStripList s.data).filter isDigitChar))),
       some "\"$\"#,##0") := by
  have hs : s ≠ "" := by
    intro e
    subst e
    exact hne rfl
  simp only [_infer_and_convert_data_type, if_neg hs]
  rw [if_neg hne]
  have h1 : pctGuard (pyStripList s.data) = false := pctGuard_false_of_all _ hall
  have h2 : currencyMatch (pyStripList s.data) = true :=
    currencyMatch_of_digitsCommas _ hne hall
  have h3 : currencyNumericPart (pyStripList s.data) =
      (pyStripList s.data).filter isDigitChar := currencyNumericPart_eq_filter _ hall
  have h4 : ((pyStripList s.data).filter isDigitChar).contains '.' = false :=
    filter_digits_no_dot _
  have hne2 : (pyStripList s.data).filter isDigitChar ≠ [] := by
    have hx : ∃ c ∈ pyStripList s.data, isDigitChar c = true := by
      simpa [List.any_eq_true] using hdig
    obtain ⟨c, hcm, hcd⟩ := hx
    exact List.ne_nil_of_mem (List.mem_filter.mpr ⟨hcm, hcd⟩)
  have hall2 : ((pyStripList s.data).filter isDigitChar).all isDigitChar = true := by
    rw [List.all_eq_true]
    intro c hcm
    exact List.of_mem_filter hcm
  have h5 : pyIntList ((pyStripList s.data).filter isDigitChar) =
      some (digitsVal ((pyStripList s.data).filter isDigitChar) : Int) :=
    pyIntList_digits _ hne2 hall2
  unfold inferCore numericStage
  simp [h1, h2, h3, h4, h5, show isDigitChar '.' = false from by decide]

theorem claim_C1_digits_commas_witness :
    _infer_and_convert_data_type (some "12,345,678") =
      (some (CellValue.int 12345678), some "\"$\"#,##0") :=
  (claim_C1_digits_commas "12,345,678" (by decide) (by decide) (by decide)).trans
    (by decide)

/-! ## Claim C6 -/

/-- C6: the inference function is total by construction (it is a Lean
function); when the stripped input matches none of the percentage,
currency, plain-number, fallback-numeric, date, or boolean patterns,
the result is the trimmed original string with no display-format
token. -/
theorem claim_C6_fallback_text (s : String)
    (hne : pyStripList s.data ≠ [])
    (hp : pctGuard (pyStripList s.data) = false)
    (hc : currencyMatch (pyStripList s.data) = false)
    (hn : numberMatch (pyStripList s.data) = false)
    (hf : pyFloatList (pyStripList s.data) = none)
    (hi : pyIntList (pyStripList s.data) = none)
    (hd : dateStage (pyStripList s.data) = none)
    (hb : boolWords.contains ((pyStripList s.data).map pyCharLower) = false) :
    _infer_and_convert_data_type (some s) =
      (some (CellValue.text (String.mk (pyStripList s.data))), none) := by
  have hs : s ≠ "" := by
    intro e
    subst e
    exact hne rfl
  simp only [_infer_and_convert_data_type, if_neg hs]
  rw [if_neg hne]
  unfold inferCore numericStage
  simp only [hp, hc, hn, hf, hi, hd, Option.map_none', Bool.false_eq_true, if_false,
    ite_self]
  have hb' : ¬((pyStripList s.data).map pyCharLower ∈ boolWords) := by
    simpa using hb
  simp [hb']

theorem claim_C6_fallback_text_witness :
    _infer_and_convert_data_type (some "hello") =
      (some (CellValue.text "hello"), none) :=
  (claim_C6_fallback_text "hello" (by decide) (by decide) (by decide) (by decide)
    (by decide) (by decide) (by decide) (by decide)).trans (by decide)

/-! ## Result-shape lemmas for the detection stages -/

theorem numericStage_result_shape (l : List Char) (vf : CellValue × String)
    (h : numericStage l = some vf) :
    (∃ q, vf.1 = CellValue.float q) ∨ (∃ n, vf.1 = CellValue.int n) := by
  unfold numericStage at h
  repeat' split at h
  all_goals rw [Option.map_eq_some'] at h
  all_goals obtain ⟨a, _, ha⟩ := h
  all_goals subst ha
  all_goals first
    | exact Or.inl ⟨_, rfl⟩
    | exact Or.inr ⟨_, rfl⟩

theorem oelse_eq_some (a b : Option (CellValue × String)) (x : CellValue × String)
    (h : oelse a b = some x) : a = some x ∨ b = some x := by
  unfold oelse at h
  cases a with
  | some y => exact Or.inl h
  | none => exact Or.inr h

theorem tryFmtDate_shape (pd : List Char → Option ((Nat × Nat × Nat) × List Char))
    (l : List Char) (vf : CellValue × String) (h : tryFmtDate pd l = some vf) :
    ∃ y m d, vf = (CellValue.date y m d, "mm/dd/yyyy") := by
  unfold tryFmtDate at h
  repeat' split at h
  all_goals first
    | exact ⟨_, _, _, (Option.some.inj h).symm⟩
    | simp at h

theorem tryFmtDTS_shape (pd : List Char → Option ((Nat × Nat × Nat) × List Char))
    (l : List Char) (vf : CellValue × String) (h : tryFmtDTS pd l = some vf) :
    ∃ y m d hh mi ss, vf = (CellValue.datetime y m d hh mi ss, "mm/dd/yyyy h:mm") := by
  unfold tryFmtDTS at h
  repeat' split at h
  all_goals first
    | exact ⟨_, _, _, _, _, _, (Option.some.inj h).symm⟩
    | simp at h

theorem tryFmtDTM_shape (pd : List Char → Option ((Nat × Nat × Nat) × List Char))
    (l : List Char) (vf : CellValue × String) (h : tryFmtDTM pd l = some vf) :
    ∃ y m d hh mi ss, vf = (CellValue.datetime y m d hh mi ss, "mm/dd/yyyy h:mm") := by
  unfold tryFmtDTM at h
  repeat' split at h
  all_goals first
    | exact ⟨_, _, _, _, _, _, (Option.some.inj h).symm⟩
    | simp at h

theorem dateStage_result_shape (l : List Char) (vf : CellValue × String)
    (h : dateStage l = some vf) :
    (∃ y m d, vf.1 = CellValue.date y m d) ∨
    (∃ y m d hh mi ss, vf.1 = CellValue.datetime y m d hh mi ss) := by
  unfold dateStage at h
  rcases oelse_eq_some _ _ _ h with h | h
  · obtain ⟨y, m, d, rfl⟩ := tryFmtDate_shape _ _ _ h
    exact Or.inl ⟨_, _, _, rfl⟩
  rcases oelse_eq_some _ _ _ h with h | h
  · obtain ⟨y, m, d, rfl⟩ := tryFmtDate_shape _ _ _ h
    exact Or.inl ⟨_, _, _, rfl⟩
  rcases oelse_eq_some _ _ _ h with h | h
  · obtain ⟨y, m, d, rfl⟩ := tryFmtDate_shape _ _ _ h
    exact Or.inl ⟨_, _, _, rfl⟩
  rcases oelse_eq_some _ _ _ h with h | h
  · obtain ⟨y, m, d, rfl⟩ := tryFmtDate_shape _ _ _ h
    exact Or.inl ⟨_, _, _, rfl⟩
  rcases oelse_eq_some _ _ _ h with h | h
  · obtain ⟨y, m, d, hh, mi, ss, rfl⟩ := tryFmtDTS_shape _ _ _ h
    exact Or.inr ⟨_, _, _, _, _, _, rfl⟩
  rcases oelse_eq_some _ _ _ h with h | h
  · obtain ⟨y, m, d, hh, mi, ss, rfl⟩ := tryFmtDTS_shape _ _ _ h
    exact Or.inr ⟨_, _, _, _, _, _, rfl⟩
  rcases oelse_eq_some _ _ _ h with h | h
  · obtain ⟨y, m, d, hh, mi, ss, rfl⟩ := tryFmtDTS_shape _ _ _ h
    exact Or.inr ⟨_, _, _, _, _, _, rfl⟩
  rcases oelse_eq_some _ _ _ h with h | h
  · obtain ⟨y, m, d, hh, mi, ss, rfl⟩ := tryFmtDTM_shape _ _ _ h
    exact Or.inr ⟨_, _, _, _, _, _, rfl⟩
  rcases oelse_eq_some _ _ _ h with h | h
  · obtain ⟨y, m, d, hh, mi, ss, rfl⟩ := tryFmtDTM_shape _ _ _ h
    exact Or.inr ⟨_, _, _, _, _, _, rfl⟩
  · obtain ⟨y, m, d, hh, mi, ss, rfl⟩ := tryFmtDTM_shape _ _ _ h
    exact Or.inr ⟨_, _, _, _, _, _, rfl⟩

/-! ## Lowercasing inversion, for the boolean-branch analysis -/

theorem pyCharLower_eq_of_not_target (c d : Char)
    (hd : asciiCase.all (fun p => !(p.2 == d)) = true)
    (h : pyCharLower c = d) : c = d := by
  unfold pyCharLower at h
  cases hf : asciiCase.find? (fun p => p.1 == c) with
  | none => rw [hf] at h; exact h
  | some p =>
    rw [hf] at h
    have h2 : p.2 = d := h
    have hm : p ∈ asciiCase := List.mem_of_find?_eq_some hf
    have hall := List.all_eq_true.mp hd p hm
    rw [h2] at hall
    simp at hall

theorem map_lower_singleton (sv : List Char) (d : Char)
    (hd : asciiCase.all (fun p => !(p.2 == d)) = true)
    (h : sv.map pyCharLower = [d]) : sv = [d] := by
  cases sv with
  | nil => simp at h
  | cons c t =>
    simp only [List.map_cons, List.cons.injEq] at h
    obtain ⟨h1, h2⟩ := h
    have hc : c = d := pyCharLower_eq_of_not_target c d hd h1
    have ht : t = [] := List.map_eq_nil_iff.mp h2
    rw [hc, ht]

/-! ## Claim C5 -/

/-- C5: `"1"` and `"0"` are inferred as the integers 1 and 0 (the
numeric stage claims them first), never as booleans; the boolean branch
is reachable only for inputs whose lowercased trimmed form is one of
`"true"`, `"false"`, `"yes"`, `"no"`. -/
theorem claim_C5_numeric_precedence :
    (_infer_and_convert_data_type (some "1")).1 = some (CellValue.int 1) ∧
    (_infer_and_convert_data_type (some "0")).1 = some (CellValue.int 0) ∧
    ∀ (s : String) (b : Bool),
      (_infer_and_convert_data_type (some s)).1 = some (CellValue.bool b) →
      (pyStripList s.data).map pyCharLower ∈
        ["true".data, "false".data, "yes".data, "no".data] := by
  refine ⟨by decide, by decide, ?_⟩
  intro s b h
  by_cases hs : s = ""
  · subst hs; simp [_infer_and_convert_data_type] at h
  simp only [_infer_and_convert_data_type, if_neg hs] at h
  by_cases hv : pyStripList s.data = []
  · rw [if_pos hv] at h; simp at h
  rw [if_neg hv] at h
  unfold inferCore at h
  cases hn : numericStage (pyStripList s.data) with
  | some vf =>
    rw [hn] at h
    simp only [Option.some.injEq] at h
    rcases numericStage_result_shape _ _ hn with ⟨q, hq⟩ | ⟨n, hq⟩ <;>
      rw [hq] at h <;> exact absurd h (by simp)
  | none =>
    rw [hn] at h
    cases hd : dateStage (pyStripList s.data) with
    | some vf =>
      rw [hd] at h
      simp only [Option.some.injEq] at h
      rcases dateStage_result_shape _ _ hd with ⟨y, m, d, hq⟩ | ⟨y, m, d, hh, mi, ss, hq⟩ <;>
        rw [hq] at h <;> exact absurd h (by simp)
    | none =>
      rw [hd] at h
      by_cases hbw : (pyStripList s.data).map pyCharLower ∈ boolWords
      · have hmem := hbw
        simp only [boolWords, List.mem_cons, List.not_mem_nil, or_false] at hmem
        rcases hmem with h1 | h1 | h1 | h1 | h1 | h1
        · simp [h1]
        · simp [h1]
        · simp [h1]
        · simp [h1]
        · exfalso
          have hone : pyStripList s.data = ['1'] := by
            have := map_lower_singleton (pyStripList s.data) '1' (by decide)
            exact this (by simpa using h1)
          rw [hone] at hn
          exact absurd hn (by decide)
        · exfalso
          have hzero : pyStripList s.data = ['0'] := by
            have := map_lower_singleton (pyStripList s.data) '0' (by decide)
            exact this (by simpa using h1)
          rw [hzero] at hn
          exact absurd hn (by decide)
      · exfalso
        rw [if_neg ?_] at h
        · simp at h
        · simpa using hbw

theorem claim_C5_numeric_precedence_witness :
    (pyStripList "yes".data).map pyCharLower ∈
      ["true".data, "false".data, "yes".data, "no".data] :=
  claim_C5_numeric_precedence.2.2 "yes" true (by decide)

/-! ## Address-string plumbing lemmas -/

theorem stringAppend_data (s t : String) : (s ++ t).data = s.data ++ t.data := by
  cases s
  cases t
  rfl

theorem parseAddrList_no_colon (l : List Char) (x : Nat × Nat)
    (h : parseAddrList l = some x) : l.contains ':' = false := by
  unfold parseAddrList at h
  by_cases h1 : (l.takeWhile isAsciiLetter).isEmpty = true
  · rw [if_pos h1] at h; exact absurd h (by simp)
  rw [if_neg h1] at h
  by_cases h2 : (l.dropWhile isAsciiLetter).isEmpty = true
  · rw [if_pos h2] at h; exact absurd h (by simp)
  rw [if_neg h2] at h
  by_cases h3 : (!((l.dropWhile isAsciiLetter).all isDigitChar)) = true
  · rw [if_pos h3] at h; exact absurd h (by simp)
  rw [if_neg h3] at h
  have hall : (l.dropWhile isAsciiLetter).all isDigitChar = true := by
    simpa using h3
  have hnm : ¬(':' ∈ l) := by
    intro hm
    rw [← List.takeWhile_append_dropWhile (p := isAsciiLetter) (l := l)] at hm
    rcases List.mem_append.mp hm with hm | hm
    · exact absurd (List.mem_takeWhile_imp hm) (by decide)
    · exact absurd (List.all_eq_true.mp hall _ hm) (by decide)
  simpa [List.contains] using hnm

theorem splitOnChar_no_occur (c : Char) (l : List Char)
    (h : l.contains c = false) : splitOnChar c l = [l] := by
  induction l with
  | nil => rfl
  | cons x t ih =>
    have hx : (x == c) = false := by
      by_cases e : x = c
      · subst e; simp [List.contains] at h
      · simp [e]
    have ht : t.contains c = false := by
      rcases Bool.eq_false_iff.mp h with _
      by_cases e : t.contains c = true
      · exfalso
        have : (x :: t).contains c = true := by
          have hm : c ∈ t := by simpa [List.contains] using e
          simp [List.contains, hm]
        rw [this] at h; cases h
      · simpa using e
    unfold splitOnChar
    rw [ih ht]
    simp [hx]

theorem splitOnChar_append (c : Char) (l1 l2 : List Char)
    (h : l1.contains c = false) :
    splitOnChar c (l1 ++ c :: l2) = l1 :: splitOnChar c l2 := by
  induction l1 with
  | nil =>
    rw [List.nil_append]
    conv_lhs => rw [splitOnChar]
    simp
  | cons x t ih =>
    have hx : (x == c) = false := by
      by_cases e : x = c
      · subst e; simp [List.contains] at h
      · simp [e]
    have ht : t.contains c = false := by
      by_cases e : t.contains c = true
      · exfalso
        have : (x :: t).contains c = true := by
          have hm : c ∈ t := by simpa [List.contains] using e
          simp [List.contains, hm]
        rw [this] at h; cases h
      · simpa using e
    have ihh := ih ht
    rw [List.cons_append]
    conv_lhs => rw [splitOnChar]
    rw [ihh]
    simp [hx]

theorem parse_cell_range_selfjoin (s : String) (r c : Nat)
    (h : parseAddrList s.data = some (r, c)) :
    parse_cell_range (s ++ ":" ++ s) = some (r, c, some r, some c) := by
  have hnc : s.data.contains ':' = false := parseAddrList_no_colon _ _ h
  have hdata : (s ++ ":" ++ s).data = s.data ++ ':' :: s.data := by
    rw [stringAppend_data, stringAppend_data]
    simp [show (":" : String).data = [':'] from rfl]
  unfold parse_cell_range
  rw [hdata, splitOnChar_append ':' s.data s.data hnc,
      splitOnChar_no_occur ':' s.data hnc]
  simp [h]

theorem splitStartCell_no_colon (s : String) (e : Option String) (x : Nat × Nat)
    (h : parseAddrList s.data = some x) : splitStartCell s e = some (s, e) := by
  unfold splitStartCell
  rw [parseAddrList_no_colon _ _ h]
  simp

theorem read_reaches (wb : Workbook) (sn s e : String) (ws : Sheet)
    (sr sc er ec : Nat)
    (hws : wb.findSheet sn = some ws)
    (hs : parseAddrList s.data = some (sr, sc))
    (he0 : ¬(e = ""))
    (he : parseAddrList e.data = some (er, ec)) :
    read_excel_range wb sn s (some e) = readFinish ws sr sc er ec := by
  simp only [read_excel_range, hws, splitStartCell_no_colon s (some e) _ hs,
    parse_cell_range_selfjoin s sr sc hs, if_neg he0,
    parse_cell_range_selfjoin e er ec he]

/-! ## Claim C2 -/

/-- C2 counterexample: on a populated sheet (one value at A1, reported
boundary row/col 1), reading from the out-of-bounds start "B2" with
**no** end cell does not return an empty sequence: the no-end-cell
branch replaces the caller's start with the sheet minimum and returns
the full populated range. -/
theorem claim_C2_counterexample :
    parseAddrList "B2".data = some (2, 2) ∧
    sheetOneCell.maxRow = 1 ∧ sheetOneCell.maxCol = 1 ∧
    read_excel_range wbOneCell "S" "B2" none =
      Except.ok [[some (CellValue.text "x")]] ∧
    ([[some (CellValue.text "x")]] : List (List (Option CellValue))) ≠ [] :=
  ⟨by decide, rfl, rfl, by rfl, by decide⟩

/-- C2 (amended): for every populated sheet and caller-supplied start
cell beyond the sheet's reported maximum row or column, `read_excel_range`
returns an empty sequence (and never raises) **when an end cell is
supplied**; with no end cell the caller's start is replaced by the
sheet's own minimum, so the full populated range is returned instead. -/
theorem claim_C2_out_of_bounds_empty (wb : Workbook) (sn s e : String) (ws : Sheet)
    (sr sc er ec : Nat)
    (hws : wb.findSheet sn = some ws)
    (hs : parseAddrList s.data = some (sr, sc))
    (he0 : ¬(e = ""))
    (he : parseAddrList e.data = some (er, ec))
    (hob : sr > ws.maxRow ∨ sc > ws.maxCol) :
    read_excel_range wb sn s (some e) = Except.ok [] := by
  rw [read_reaches wb sn s e ws sr sc er ec hws hs he0 he]
  unfold readFinish
  rw [if_pos hob]

theorem claim_C2_out_of_bounds_empty_witness :
    read_excel_range wbOneCell "S" "B2" (some "C3") = Except.ok [] :=
  claim_C2_out_of_bounds_empty wbOneCell "S" "B2" "C3" sheetOneCell 2 2 3 3
    (by rfl) (by decide) (by decide) (by decide) (Or.inl (by decide))

/-! ## Write-loop lemmas (auto-detect disabled) -/

theorem writeRow_fmts_false (vals : List (Option String)) :
    ∀ (ws : Sheet) (r c : Nat), (writeRow ws r c vals false).fmts = ws.fmts := by
  induction vals with
  | nil => intro ws r c; rfl
  | cons v rest ih =>
    intro ws r c
    rw [writeRow, ih]
    rfl

theorem writeRows_fmts_false (rows : List (List (Option String))) :
    ∀ (ws : Sheet) (r c : Nat), (writeRows ws r c rows false).fmts = ws.fmts := by
  induction rows with
  | nil => intro ws r c; rfl
  | cons row rest ih =>
    intro ws r c
    rw [writeRows, ih, writeRow_fmts_false]

theorem writeRow_cells_other (vals : List (Option String)) :
    ∀ (ws : Sheet) (r c r' c' : Nat), (r' ≠ r ∨ c' < c) →
    (writeRow ws r c vals false).cells r' c' = ws.cells r' c' := by
  induction vals with
  | nil => intro ws r c r' c' _; rfl
  | cons v rest ih =>
    intro ws r c r' c' hcond
    have h1 : r' ≠ r ∨ c' < c + 1 := by
      rcases hcond with h | h
      · exact Or.inl h
      · exact Or.inr (Nat.lt_succ_of_lt h)
    rw [writeRow, ih _ r (c + 1) r' c' h1]
    have h2 : ¬(r' = r ∧ c' = c) := by
      rcases hcond with h | h
      · intro hc; exact h hc.1
      · intro hc; omega
    show (updateCell ws r c (v.map CellValue.text)).cells r' c' = ws.cells r' c'
    simp [updateCell, h2]

theorem writeRows_cells_above (rows : List (List (Option String))) :
    ∀ (ws : Sheet) (r c r' c' : Nat), r' < r →
    (writeRows ws r c rows false).cells r' c' = ws.cells r' c' := by
  induction rows with
  | nil => intro ws r c r' c' _; rfl
  | cons row rest ih =>
    intro ws r c r' c' h
    rw [writeRows, ih _ (r + 1) c r' c' (Nat.lt_succ_of_lt h)]
    exact writeRow_cells_other row ws r c r' c' (Or.inl (Nat.ne_of_lt h))

theorem writeRow_cells_get (vals : List (Option String)) :
    ∀ (ws : Sheet) (r c j : Nat) (hj : j < vals.length),
    (writeRow ws r c vals false).cells r (c + j) =
      (vals.get ⟨j, hj⟩).map CellValue.text := by
  induction vals with
  | nil => intro ws r c j hj; exact absurd hj (by simp)
  | cons v rest ih =>
    intro ws r c j hj
    cases j with
    | zero =>
      rw [writeRow, writeRow_cells_other rest _ r (c + 1) r (c + 0) (Or.inr (by omega))]
      show (updateCell ws r c (v.map CellValue.text)).cells r (c + 0) = _
      simp [updateCell]
    | succ k =>
      have hk : k < rest.length := by
        simpa using Nat.lt_of_succ_lt_succ (by simpa using hj)
      have harith : c + (k + 1) = (c + 1) + k := by omega
      rw [writeRow, harith, ih _ r (c + 1) k hk]
      rfl

theorem writeRows_cells_get (rows : List (List (Option String))) :
    ∀ (ws : Sheet) (r c i j : Nat) (hi : i < rows.length)
      (hj : j < (rows.get ⟨i, hi⟩).length),
    (writeRows ws r c rows false).cells (r + i) (c + j) =
      ((rows.get ⟨i, hi⟩).get ⟨j, hj⟩).map CellValue.text := by
  induction rows with
  | nil => intro ws r c i j hi _; exact absurd hi (by simp)
  | cons row rest ih =>
    intro ws r c i j hi hj
    cases i with
    | zero =>
      rw [writeRows, writeRows_cells_above rest _ (r + 1) c (r + 0) (c + j) (by omega)]
      exact writeRow_cells_get row ws r c j hj
    | succ k =>
      have hk : k < rest.length := by
        simpa using Nat.lt_of_succ_lt_succ (by simpa using hi)
      have harith : r + (k + 1) = (r + 1) + k := by omega
      rw [writeRows, harith]
      exact ih _ (r + 1) c k j hk hj

/-! ## Claim C3 -/

/-- C3: with auto-detect disabled, the write helper stores each raw
value verbatim (as the written Python value) in its additively-offset
target cell and leaves the display-format map of the sheet entirely
unchanged — no number format is ever set on that path. -/
theorem claim_C3_no_autodetect_verbatim (ws : Sheet)
    (data : List (List (Option String))) (start : String) (sr sc : Nat)
    (o1 o2 : Option Nat)
    (hne : data ≠ [])
    (hp : parse_cell_range start = some (sr, sc, o1, o2)) :
    _write_data_to_worksheet ws data start false =
      Except.ok (writeRows ws sr sc data false) ∧
    (writeRows ws sr sc data false).fmts = ws.fmts ∧
    ∀ (i j : Nat) (hi : i < data.length) (hj : j < (data.get ⟨i, hi⟩).length),
      (writeRows ws sr sc data false).cells (sr + i) (sc + j) =
        ((data.get ⟨i, hi⟩).get ⟨j, hj⟩).map CellValue.text := by
  refine ⟨?_, writeRows_fmts_false data ws sr sc,
    fun i j hi hj => writeRows_cells_get data ws sr sc i j hi hj⟩
  unfold _write_data_to_worksheet
  rw [if_neg hne, hp]

theorem claim_C3_no_autodetect_verbatim_witness :
    (writeRows sheetOneCell 1 1 [[some "1,000", none], [some "x"]] false).fmts =
      sheetOneCell.fmts ∧
    (writeRows sheetOneCell 1 1 [[some "1,000", none], [some "x"]] false).cells
        (1 + 0) (1 + 0) = some (CellValue.text "1,000") ∧
    (writeRows sheetOneCell 1 1 [[some "1,000", none], [some "x"]] false).cells
        (1 + 0) (1 + 1) = none :=
  ⟨(claim_C3_no_autodetect_verbatim sheetOneCell [[some "1,000", none], [some "x"]]
      "A1" 1 1 none none (by decide) (by decide)).2.1,
   ((claim_C3_no_autodetect_verbatim sheetOneCell [[some "1,000", none], [some "x"]]
      "A1" 1 1 none none (by decide) (by decide)).2.2 0 0 (by decide) (by decide)).trans
     (by rfl),
   ((claim_C3_no_autodetect_verbatim sheetOneCell [[some "1,000", none], [some "x"]]
      "A1" 1 1 none none (by decide) (by decide)).2.2 0 1 (by decide) (by decide)).trans
     (by rfl)⟩

/-! ## Read-rectangle characterisation lemmas -/

theorem filterMap_if_any {α β : Type} (l : List α) (g : α → β) (p : β → Bool) :
    l.filterMap (fun a => if p (g a) then some (g a) else none) =
      (l.filter (fun a => p (g a))).map g := by
  induction l with
  | nil => rfl
  | cons x t ih =>
    by_cases hx : p (g x) = true
    · simp [List.filterMap_cons, List.filter_cons, hx, ih]
    · simp [List.filterMap_cons, List.filter_cons, hx, ih]

theorem collectRows_eq_filter (ws : Sheet) (sr sc er ec : Nat) :
    collectRows ws sr sc er ec =
      ((List.range' sr (er + 1 - sr)).filter (fun r =>
        ((List.range' sc (ec + 1 - sc)).map (fun c => ws.cells r c)).any
          (fun v => v.isSome))).map
        (fun r => (List.range' sc (ec + 1 - sc)).map (fun c => ws.cells r c)) := by
  show (List.range' sr (er + 1 - sr)).filterMap (fun r =>
      if ((List.range' sc (ec + 1 - sc)).map (fun c => ws.cells r c)).any
           (fun v => v.isSome)
      then some ((List.range' sc (ec + 1 - sc)).map (fun c => ws.cells r c))
      else none) = _
  exact filterMap_if_any _
    (fun r => (List.range' sc (ec + 1 - sc)).map (fun c => ws.cells r c))
    (fun rd => rd.any (fun v => v.isSome))

theorem meta_reaches (wb : Workbook) (sn s e : String) (ws : Sheet)
    (sr sc er ec : Nat) (iv : Bool)
    (hws : wb.findSheet sn = some ws)
    (hs : parseAddrList s.data = some (sr, sc))
    (he0 : ¬(e = ""))
    (he : parseAddrList e.data = some (er, ec)) :
    read_excel_range_with_metadata wb sn s (some e) iv =
      metaFinish ws sn s iv sr sc er ec := by
  simp only [read_excel_range_with_metadata, hws,
    splitStartCell_no_colon s (some e) _ hs, parse_cell_range_selfjoin s sr sc hs,
    if_neg he0, parse_cell_range_selfjoin e er ec he]

theorem flatMap_const_length {α β : Type} (l : List α) (f : α → List β) (w : Nat)
    (h : ∀ a, (f a).length = w) : (l.flatMap f).length = l.length * w := by
  induction l with
  | nil => simp
  | cons x t ih =>
    simp [List.flatMap_cons, h, ih, Nat.succ_mul, Nat.add_comm]

theorem collectCells_length (ws : Sheet) (sr sc er ec : Nat) (iv : Bool) :
    (collectCells ws sr sc er ec iv).length = (er + 1 - sr) * (ec + 1 - sc) := by
  unfold collectCells
  rw [flatMap_const_length _ _ (ec + 1 - sc)
    (fun a => by simp [List.length_map, List.length_range'])]
  simp [List.length_range']

theorem collectCells_proj (ws : Sheet) (sr sc er ec : Nat) (iv : Bool) :
    (collectCells ws sr sc er ec iv).map (fun cr => (cr.row, cr.column, cr.value)) =
      (List.range' sr (er + 1 - sr)).flatMap (fun r =>
        (List.range' sc (ec + 1 - sc)).map (fun c => (r, c, ws.cells r c))) := by
  unfold collectCells
  rw [List.map_flatMap]
  congr 1
  funext a
  rw [List.map_map]
  congr 1

/-! ## Claim C8 -/

/-- C8: in plain-read mode, with the rectangle resolved from a supplied
start and end cell and the start in bounds, the output is exactly the
row-major sequence of row vectors restricted to rows with at least one
non-empty cell (rows in increasing row order, cells in increasing column
order); in metadata mode every cell of the rectangle is included
regardless of emptiness, row-major, with its row, column and value. -/
theorem claim_C8_row_filtering (wb : Workbook) (sn s e : String) (ws : Sheet)
    (sr sc er ec : Nat) (iv : Bool)
    (hws : wb.findSheet sn = some ws)
    (hs : parseAddrList s.data = some (sr, sc))
    (he0 : ¬(e = ""))
    (he : parseAddrList e.data = some (er, ec))
    (hin : sr ≤ ws.maxRow ∧ sc ≤ ws.maxCol) :
    read_excel_range wb sn s (some e) =
      Except.ok (((List.range' sr (er + 1 - sr)).filter (fun r =>
          ((List.range' sc (ec + 1 - sc)).map (fun c => ws.cells r c)).any
            (fun v => v.isSome))).map
        (fun r => (List.range' sc (ec + 1 - sc)).map (fun c => ws.cells r c))) ∧
    (read_excel_range_with_metadata wb sn s (some e) iv).toOption.map
        (fun rd => rd.cells.length) =
      some ((er + 1 - sr) * (ec + 1 - sc)) ∧
    (read_excel_range_with_metadata wb sn s (some e) iv).toOption.map
        (fun rd => rd.cells.map (fun cr => (cr.row, cr.column, cr.value))) =
      some ((List.range' sr (er + 1 - sr)).flatMap (fun r =>
        (List.range' sc (ec + 1 - sc)).map (fun c => (r, c, ws.cells r c)))) := by
  have hnob : ¬(sr > ws.maxRow ∨ sc > ws.maxCol) := by
    intro h
    rcases h with h | h
    · omega
    · omega
  refine ⟨?_, ?_, ?_⟩
  · rw [read_reaches wb sn s e ws sr sc er ec hws hs he0 he]
    unfold readFinish
    rw [if_neg hnob, collectRows_eq_filter]
  · rw [meta_reaches wb sn s e ws sr sc er ec iv hws hs he0 he]
    unfold metaFinish
    rw [if_neg hnob]
    exact congrArg some (collectCells_length ws sr sc er ec iv)
  · rw [meta_reaches wb sn s e ws sr sc er ec iv hws hs he0 he]
    unfold metaFinish
    rw [if_neg hnob]
    exact congrArg some (collectCells_proj ws sr sc er ec iv)

theorem claim_C8_row_filtering_witness :
    read_excel_range wbTwoByTwo "S" "A1" (some "B2") =
      Except.ok [[some (CellValue.text "a"), none]] ∧
    (read_excel_range_with_metadata wbTwoByTwo "S" "A1" (some "B2") true).toOption.map
        (fun rd => rd.cells.length) = some 4 :=
  ⟨((claim_C8_row_filtering wbTwoByTwo "S" "A1" "B2" sheetTwoByTwo 1 1 2 2 true
      (by rfl) (by decide) (by decide) (by decide) (by decide)).1).trans (by rfl),
   ((claim_C8_row_filtering wbTwoByTwo "S" "A1" "B2" sheetTwoByTwo 1 1 2 2 true
      (by rfl) (by decide) (by decide) (by decide) (by decide)).2.1).trans (by decide)⟩

/-! ## Workbook sheet-list lemmas -/

theorem find?_append_none {α : Type} (l1 l2 : List α) (p : α → Bool)
    (h : l1.find? p = none) : (l1 ++ l2).find? p = l2.find? p := by
  induction l1 with
  | nil => rfl
  | cons x t ih =>
    by_cases hx : p x = true
    · rw [List.find?_cons_of_pos _ hx] at h; cases h
    · have hx' : ¬(p x = true) := hx
      rw [List.find?_cons_of_neg _ (by simpa using hx')] at h
      rw [List.cons_append, List.find?_cons_of_neg _ (by simpa using hx')]
      exact ih h

theorem hasSheet_eq_findSheet_isSome (wb : Workbook) (n : String) :
    wb.hasSheet n = (wb.findSheet n).isSome := by
  unfold Workbook.hasSheet Workbook.findSheet
  cases wb.sheets.find? (fun p => p.1 == n) <;> rfl

theorem findSheet_createSheet (wb : Workbook) (s : String)
    (h : wb.hasSheet s = false) :
    (wb.createSheet s).findSheet s = some emptySheet := by
  unfold Workbook.findSheet Workbook.createSheet
  have hf : wb.sheets.find? (fun p => p.1 == s) = none := by
    unfold Workbook.hasSheet at h
    exact Option.not_isSome_iff_eq_none.mp (by simp [h])
  simp only [find?_append_none _ _ _ hf]
  rw [List.find?_cons_of_pos _ (by simp)]
  rfl

theorem find?_map_keykeep (L : List (String × Sheet)) (n m : String) (ws : Sheet) :
    ((L.map (fun p => if p.1 == n then (p.1, ws) else p)).find?
        (fun p => p.1 == m)).isSome =
      (L.find? (fun p => p.1 == m)).isSome := by
  induction L with
  | nil => rfl
  | cons x t ih =>
    rw [List.map_cons, List.find?_cons, List.find?_cons]
    have hkey : ((if (x.1 == n) = true then (x.1, ws) else x).1 == m) = (x.1 == m) := by
      by_cases hx : (x.1 == n) = true
      · rw [if_pos hx]
      · rw [if_neg hx]
    rw [hkey]
    cases hm : (x.1 == m) with
    | true => rfl
    | false => exact ih

theorem hasSheet_setSheet (wb : Workbook) (n m : String) (ws : Sheet) :
    (wb.setSheet n ws).hasSheet m = wb.hasSheet m := by
  unfold Workbook.setSheet Workbook.hasSheet
  exact find?_map_keykeep wb.sheets n m ws

/-! ## Claim C10 -/

/-- C10 counterexample: the empty-string sheet name is not present in
the workbook, yet `write_data` neither creates a sheet named `""` nor
reports it: Python truthiness (`if not sheet_name`) routes the falsy
name to the active sheet instead. -/
theorem claim_C10_counterexample :
    wbOneCell.hasSheet "" = false ∧
    (write_data wbOneCell (some "") (some [[some "x"]]) "A1" false).toOption.map
        (fun t => (t.2.2, t.1.hasSheet "")) = some ("S", false) ∧
    (some ("S", false) : Option (String × Bool)) ≠ some ("", true) :=
  ⟨by rfl, by rfl, by decide⟩

/-- C10 (amended): for every **non-empty** sheet name not present in the
workbook, `write_data` creates a sheet with that name, writes the data
into that fresh sheet, and returns success reporting that name (in
contrast to the read path, which raises for a missing sheet); when
`sheet_name` is `none` — or the falsy empty string — it writes to the
workbook's active sheet and reports that sheet's name. -/
theorem claim_C10_create_on_write :
    (∀ (wb : Workbook) (s start : String) (rows : List (List (Option String)))
       (auto : Bool) (sr sc : Nat) (o1 o2 : Option Nat),
       s ≠ "" → wb.hasSheet s = false → rows ≠ [] →
       parse_cell_range start = some (sr, sc, o1, o2) →
       write_data wb (some s) (some rows) start auto =
         Except.ok ((wb.createSheet s).setSheet s
             (writeRows emptySheet sr sc rows auto),
           "Data written to " ++ s ++ " with type detection", s) ∧
       ((wb.createSheet s).setSheet s
           (writeRows emptySheet sr sc rows auto)).hasSheet s = true) ∧
    (∀ (wb : Workbook) (wsA : Sheet) (start : String)
       (rows : List (List (Option String))) (auto : Bool) (sr sc : Nat)
       (o1 o2 : Option Nat),
       wb.findSheet wb.active = some wsA → rows ≠ [] →
       parse_cell_range start = some (sr, sc, o1, o2) →
       write_data wb none (some rows) start auto =
         Except.ok (wb.setSheet wb.active (writeRows wsA sr sc rows auto),
           "Data written to " ++ wb.active ++ " with type detection", wb.active)) ∧
    (∀ (wb : Workbook) (sn st : String) (en : Option String),
       wb.hasSheet sn = false →
       read_excel_range wb sn st en =
         Except.error ("Sheet \x27" ++ sn ++ "\x27 not found")) := by
  refine ⟨?_, ?_, ?_⟩
  · intro wb s start rows auto sr sc o1 o2 hs hmiss hrows hp
    have hfind := findSheet_createSheet wb s hmiss
    constructor
    · simp only [write_data, _write_data_to_worksheet, if_neg hrows, if_neg hs,
        hmiss, Bool.false_eq_true, if_false, hfind, hp]
    · rw [hasSheet_setSheet, hasSheet_eq_findSheet_isSome, hfind]
      rfl
  · intro wb wsA start rows auto sr sc o1 o2 hact hrows hp
    simp only [write_data, _write_data_to_worksheet, if_neg hrows, hact, hp]
  · intro wb sn st en h
    have hnone : wb.findSheet sn = none := by
      rw [hasSheet_eq_findSheet_isSome] at h
      exact Option.not_isSome_iff_eq_none.mp (by simp [h])
    unfold read_excel_range
    rw [hnone]

theorem claim_C10_create_on_write_witness :
    write_data wbOneCell (some "New") (some [[some "x"]]) "A1" false =
      Except.ok ((wbOneCell.createSheet "New").setSheet "New"
          (writeRows emptySheet 1 1 [[some "x"]] false),
        "Data written to " ++ "New" ++ " with type detection", "New") ∧
    ((wbOneCell.createSheet "New").setSheet "New"
        (writeRows emptySheet 1 1 [[some "x"]] false)).hasSheet "New" = true ∧
    read_excel_range wbOneCell "T" "A1" none =
      Except.error ("Sheet \x27" ++ "T" ++ "\x27 not found") :=
  ⟨(claim_C10_create_on_write.1 wbOneCell "New" "A1" [[some "x"]] false 1 1 none none
      (by decide) (by rfl) (by decide) (by decide)).1,
   (claim_C10_create_on_write.1 wbOneCell "New" "A1" [[some "x"]] false 1 1 none none
      (by decide) (by rfl) (by decide) (by decide)).2,
   claim_C10_create_on_write.2.2 wbOneCell "T" "A1" none (by rfl)⟩
